import Mathlib

/-
Verification of the hue-mcp device control and synchronization layer.

This file gives a shallow embedding, in Lean 4, of the parts of the
repository that the checked claims are about:

 * src/utils/colors.ts      - named color / color temperature lookup
 * hue-client.ts            - natural language state parsing, the cache
                              (refreshCache, getLight, setLightState,
                              setRoomState, setZoneState, shouldRefreshCache)
 * src/tools/rooms.ts       - generateLightVariations, shouldUseVariation and
                              the control_room_lights / control_zone_lights
                              fan out logic
 * pkg/bridge/manager.go    - InitializeBridges, GetDefaultBridge

JavaScript numbers are modeled as rationals, Math.random() as an injected
stream of rationals in [0,1), JS string containment as list infix, and the
failure of a network write as an injected outcome.  Concurrent fan out
(Promise.all over independent writes) is modeled by a linearization in which
each write result depends only on that device through the injected outcome
function.  Where JS object aliasing matters (the optimistic room / zone cache
patch) we use a second, heap style embedding in which nested state objects
live in an explicit store addressed by references.
-/

namespace HueMcp

/-! ### Generic helpers -/

/-- JS String.prototype.includes: substring containment, as list infix. -/
def containsSub (hay sub : List Char) : Bool := decide (sub <:+: hay)

/-- JS String.prototype.toLowerCase, per character (ASCII inputs). -/
def jsLower (s : List Char) : List Char := s.map Char.toLower

/-- JS String.prototype.trim: strip leading and trailing whitespace. -/
def jsTrim (s : List Char) : List Char :=
  ((s.dropWhile Char.isWhitespace).reverse.dropWhile Char.isWhitespace).reverse

/-- JS Math.round: round half up. -/
def jsRound (x : ℚ) : ℤ := ⌊x + 1 / 2⌋

/-- Math.max(lo, Math.min(hi, x)), the clamp pattern used throughout. -/
def clampQ (lo hi x : ℚ) : ℚ := max lo (min hi x)

/-- JS Map.prototype.set: replace the entry of an existing key in place,
append the entry otherwise.  (Also the assignment of a Go map key.) -/
def assocUpdate {κ α : Type} [DecidableEq κ] (k : κ) (v : α) :
    List (κ × α) → List (κ × α)
  | [] => [(k, v)]
  | (k2, v2) :: rest =>
      if k2 = k then (k, v) :: rest else (k2, v2) :: assocUpdate k v rest

/-- parseInt on a nonempty string of decimal digits. -/
def digitsToNat (ds : List Char) : ℕ :=
  ds.foldl (fun n c => n * 10 + (c.toNat - 48)) 0

/-! ### Data model: LightState (types/index.ts)

All fields optional; absence means leave unchanged. -/

structure LightState where
  /-- the source field named on (a reserved token in Lean) -/
  isOn : Option Bool := none
  brightness : Option ℚ := none
  hue : Option ℚ := none
  saturation : Option ℚ := none
  colorTemp : Option ℚ := none
  transitionTime : Option ℚ := none
deriving DecidableEq

/-! ### src/utils/colors.ts -/

structure HSV where
  h : ℚ
  s : ℚ
  v : ℚ
deriving DecidableEq

/-- The fixed name to HSV table of parseColorDescription, in source
(insertion) order, which is the iteration order of Object.entries. -/
def colorTable : List (List Char × HSV) :=
  [ ("red".toList, { h := 0, s := 100, v := 100 }),
    ("orange".toList, { h := 30, s := 100, v := 100 }),
    ("yellow".toList, { h := 60, s := 100, v := 100 }),
    ("green".toList, { h := 120, s := 100, v := 100 }),
    ("cyan".toList, { h := 180, s := 100, v := 100 }),
    ("blue".toList, { h := 240, s := 100, v := 100 }),
    ("purple".toList, { h := 270, s := 100, v := 100 }),
    ("magenta".toList, { h := 300, s := 100, v := 100 }),
    ("pink".toList, { h := 330, s := 50, v := 100 }),
    ("white".toList, { h := 0, s := 0, v := 100 }),
    ("sunrise".toList, { h := 30, s := 60, v := 90 }),
    ("sunset".toList, { h := 15, s := 80, v := 85 }),
    ("dusk".toList, { h := 250, s := 30, v := 40 }),
    ("dawn".toList, { h := 200, s := 20, v := 70 }),
    ("stormy".toList, { h := 240, s := 20, v := 30 }),
    ("stormy dusk".toList, { h := 250, s := 35, v := 25 }),
    ("warm".toList, { h := 30, s := 40, v := 90 }),
    ("cool".toList, { h := 200, s := 30, v := 90 }),
    ("cold".toList, { h := 200, s := 50, v := 80 }),
    ("forest".toList, { h := 120, s := 60, v := 40 }),
    ("ocean".toList, { h := 200, s := 70, v := 60 }),
    ("sky".toList, { h := 200, s := 40, v := 90 }),
    ("fire".toList, { h := 10, s := 90, v := 90 }),
    ("ice".toList, { h := 200, s := 20, v := 95 }) ]

/-- parseColorDescription: exact table lookup first, then the first entry
(in table order) where either string contains the other. -/
def parseColorDescription (description : List Char) : Option HSV :=
  let normalized := jsTrim (jsLower description)
  match colorTable.lookup normalized with
  | some hsv => some hsv
  | none =>
    match colorTable.find?
        (fun e => containsSub normalized e.1 || containsSub e.1 normalized) with
    | some e => some e.2
    | none => none

/-- The fixed name to mireds table of parseColorTemp, in source order. -/
def tempTable : List (List Char × ℚ) :=
  [ ("candlelight".toList, 500),
    ("candle".toList, 500),
    ("warm white".toList, 370),
    ("warm".toList, 370),
    ("soft white".toList, 323),
    ("neutral".toList, 250),
    ("neutral white".toList, 250),
    ("cool white".toList, 182),
    ("cool".toList, 182),
    ("daylight".toList, 153),
    ("cold".toList, 153) ]

/-- parseColorTemp: exact lookup (guarded by JS truthiness of the value),
then the first entry where either string contains the other. -/
def parseColorTemp (description : List Char) : Option ℚ :=
  let normalized := jsTrim (jsLower description)
  let fallbackScan :=
    match tempTable.find?
        (fun e => containsSub normalized e.1 || containsSub e.1 normalized) with
    | some e => some e.2
    | none => none
  match tempTable.lookup normalized with
  | some v => if v == 0 then fallbackScan else some v
  | none => fallbackScan

/-! ### HueClient.parseNaturalLanguageState (hue-client.ts) -/

def strOff : List Char := "off".toList
def strTurnOff : List Char := "turn off".toList
def strOn : List Char := "on".toList
def strTurnOn : List Char := "turn on".toList
def strDim : List Char := "dim".toList
def strBright : List Char := "bright".toList
def strBrightnessWord : List Char := "brightness".toList
def strSlowly : List Char := "slowly".toList
def strQuickly : List Char := "quickly".toList

/-- Try the regex alternative (\d+)% at the start of s: a maximal digit run
immediately followed by a percent sign (backtracking inside the run can never
expose the percent sign, so maximal-run-then-percent is exact). -/
def matchPctAt (s : List Char) : Option ℕ :=
  let ds := s.takeWhile Char.isDigit
  if ds.isEmpty then none
  else
    match (s.drop ds.length).head? with
    | some c => if c = '%' then some (digitsToNat ds) else none
    | none => none

/-- Try the regex alternative brightness\s+(\d+) at the start of s. -/
def matchBrightnessWordAt (s : List Char) : Option ℕ :=
  if strBrightnessWord.isPrefixOf s then
    let rest := s.drop strBrightnessWord.length
    let sp := rest.takeWhile Char.isWhitespace
    if sp.isEmpty then none
    else
      let ds := (rest.drop sp.length).takeWhile Char.isDigit
      if ds.isEmpty then none else some (digitsToNat ds)
  else none

/-- lower.match of the regex (\d+)%|brightness\s+(\d+): leftmost position
wins, and at each position the alternatives are tried left to right. -/
def findBrightnessMatch : List Char → Option ℕ
  | [] => none
  | c :: rest =>
    match matchPctAt (c :: rest) with
    | some n => some n
    | none =>
      match matchBrightnessWordAt (c :: rest) with
      | some n => some n
      | none => findBrightnessMatch rest

/-- JS falsiness of state.brightness (undefined or 0). -/
def jsFalsyOpt (q : Option ℚ) : Bool :=
  match q with
  | none => true
  | some x => x == 0

/-- Brightness step: numeric percentage pattern first, then dim / bright. -/
def applyBrightnessStep (lower : List Char) (st : LightState) : LightState :=
  match findBrightnessMatch lower with
  | some n => { st with brightness := some (n : ℚ) }
  | none =>
    if containsSub lower strDim then { st with brightness := some 30 }
    else if containsSub lower strBright then { st with brightness := some 100 }
    else st

/-- Color step: on a match set hue and saturation, and set brightness from
the color value if brightness is JS-falsy and the value is below 100. -/
def applyColorStep (lower : List Char) (st : LightState) : LightState :=
  match parseColorDescription lower with
  | some hsv =>
    let st2 := { st with hue := some hsv.h, saturation := some hsv.s }
    if jsFalsyOpt st.brightness && decide (hsv.v < 100) then
      { st2 with brightness := some hsv.v }
    else st2
  | none => st

/-- Color temperature step (set only when the parsed value is JS-truthy). -/
def applyColorTempStep (lower : List Char) (st : LightState) : LightState :=
  match parseColorTemp lower with
  | some ct => if ct == 0 then st else { st with colorTemp := some ct }
  | none => st

/-- Transition step: slowly maps to 3000 ms, quickly to 200 ms. -/
def applyTransitionStep (lower : List Char) (st : LightState) : LightState :=
  if containsSub lower strSlowly then { st with transitionTime := some 3000 }
  else if containsSub lower strQuickly then { st with transitionTime := some 200 }
  else st

/-- HueClient.parseNaturalLanguageState: an off cue returns immediately with
only on=false; otherwise the on, brightness, color, color temperature and
transition steps run in order. -/
def parseNaturalLanguageState (description : List Char) : LightState :=
  let lower := jsLower description
  if containsSub lower strOff || containsSub lower strTurnOff then
    { isOn := some false }
  else
    let st0 : LightState :=
      if containsSub lower strOn || containsSub lower strTurnOn then
        { isOn := some true }
      else {}
    applyTransitionStep lower
      (applyColorTempStep lower (applyColorStep lower (applyBrightnessStep lower st0)))

/-! ### generateLightVariations (src/tools/rooms.ts)

Math.random() is modeled as an injected stream rand of rationals in [0,1),
consumed left to right in exactly the order the source draws them: for each
device, hue, saturation, brightness, colorTemp, transitionTime, skipping
attributes absent from the base state.  Each vary step rewrites only its own
attribute of the copied base state, exactly as the source mutates the spread
copy of baseState. -/

/-- hue: (Math.random() - 0.5) * 30, clamped to [0, 360]. -/
def varyHue (rand : ℕ → ℚ) (base : LightState) (p : LightState × ℕ) :
    LightState × ℕ :=
  match base.hue with
  | some h => ({ p.1 with hue := some (clampQ 0 360 (h + (rand p.2 - 1 / 2) * 30)) }, p.2 + 1)
  | none => p

/-- saturation: (Math.random() - 0.5) * 20, clamped to [0, 100]. -/
def varySaturation (rand : ℕ → ℚ) (base : LightState) (p : LightState × ℕ) :
    LightState × ℕ :=
  match base.saturation with
  | some s => ({ p.1 with saturation := some (clampQ 0 100 (s + (rand p.2 - 1 / 2) * 20)) }, p.2 + 1)
  | none => p

/-- brightness: (Math.random() - 0.5) * 40, clamped to [5, 100]. -/
def varyBrightness (rand : ℕ → ℚ) (base : LightState) (p : LightState × ℕ) :
    LightState × ℕ :=
  match base.brightness with
  | some b => ({ p.1 with brightness := some (clampQ 5 100 (b + (rand p.2 - 1 / 2) * 40)) }, p.2 + 1)
  | none => p

/-- colorTemp: (Math.random() - 0.5) * 100, clamped to [153, 500]. -/
def varyColorTemp (rand : ℕ → ℚ) (base : LightState) (p : LightState × ℕ) :
    LightState × ℕ :=
  match base.colorTemp with
  | some ct => ({ p.1 with colorTemp := some (clampQ 153 500 (ct + (rand p.2 - 1 / 2) * 100)) }, p.2 + 1)
  | none => p

/-- transitionTime: plus Math.random() * 1000, one sided. -/
def varyTransition (rand : ℕ → ℚ) (base : LightState) (p : LightState × ℕ) :
    LightState × ℕ :=
  match base.transitionTime with
  | some t => ({ p.1 with transitionTime := some (t + rand p.2 * 1000) }, p.2 + 1)
  | none => p

/-- One loop iteration of generateLightVariations: spread copy of baseState,
then the five per-attribute perturbations in source order, threading the
random stream position. -/
def genVariation (rand : ℕ → ℚ) (base : LightState) (k : ℕ) : LightState × ℕ :=
  varyTransition rand base
    (varyColorTemp rand base
      (varyBrightness rand base
        (varySaturation rand base
          (varyHue rand base (base, k)))))

/-- generateLightVariations(baseState, numLights): one variant per device. -/
def generateLightVariations (rand : ℕ → ℚ) (base : LightState) :
    ℕ → ℕ → List LightState
  | 0, _ => []
  | n + 1, k =>
    let p := genVariation rand base k
    p.1 :: generateLightVariations rand base n p.2

/-! ### shouldUseVariation and the control_room_lights / control_zone_lights
branch structure (src/tools/rooms.ts)

handleControlRoomLights and handleControlZoneLights share the same logic;
the embedding models the state they compute and the write plan they commit
to: either one uniform group write or one per-device write per room / zone
light. -/

/-- The fixed atmospheric keyword list of shouldUseVariation, in source order. -/
def atmosphericKeywords : List (List Char) :=
  [ "stormy".toList, "storm".toList, "thunderstorm".toList, "lightning".toList,
    "sunset".toList, "sunrise".toList, "dawn".toList, "dusk".toList, "twilight".toList,
    "fire".toList, "fireplace".toList, "campfire".toList, "candle".toList, "candlelight".toList,
    "ocean".toList, "forest".toList, "nature".toList, "atmospheric".toList, "moody".toList,
    "aurora".toList, "galaxy".toList, "cosmic".toList, "dreamy".toList,
    "evening".toList, "night".toList, "romantic".toList, "cozy".toList ]

/-- shouldUseVariation: false for an absent (or JS-falsy empty) natural
language string, otherwise true when the lowercased text contains any
atmospheric keyword. -/
def shouldUseVariation (naturalLanguage : Option (List Char)) : Bool :=
  match naturalLanguage with
  | none => false
  | some t =>
    if t.isEmpty then false
    else atmosphericKeywords.any (fun k => containsSub (jsLower t) k)

/-- The arguments of control_room_lights / control_zone_lights that the
branch logic reads.  The tool schema requires one of state / naturalLanguage
to be present. -/
structure ControlArgs where
  targetId : String
  state : Option LightState
  naturalLanguage : Option (List Char)
  useVariation : Option Bool

/-- JS truthiness of an optional string (undefined and the empty string are
falsy). -/
def jsTruthyStr (s : Option (List Char)) : Bool :=
  match s with
  | none => false
  | some t => !t.isEmpty

/-- baseState as computed by both handlers: parse the natural language text
when it is truthy, otherwise take the structured state argument. -/
def controlBaseState (args : ControlArgs) : LightState :=
  if jsTruthyStr args.naturalLanguage then
    parseNaturalLanguageState (args.naturalLanguage.getD [])
  else (args.state).getD {}

/-- The write plan a control handler commits to: a single uniform group
write, or one per-device write per light of the room / zone. -/
inductive ControlPlan
  | uniform (targetId : String) (st : LightState)
  | varied (writes : List (String × LightState))
deriving DecidableEq

/-- The branch logic of handleControlRoomLights: per-device variations are
generated only when variation is requested (explicitly or by atmospheric
keyword) and the base state has a hue or a colorTemp; otherwise one uniform
group write on the room. -/
def controlRoomLightsPlan (rand : ℕ → ℚ) (args : ControlArgs)
    (roomLights : List String) : ControlPlan :=
  let baseState := controlBaseState args
  let useVar := (args.useVariation.getD false) || shouldUseVariation args.naturalLanguage
  if useVar && (baseState.hue.isSome || baseState.colorTemp.isSome) then
    ControlPlan.varied
      (roomLights.zip (generateLightVariations rand baseState roomLights.length 0))
  else ControlPlan.uniform args.targetId baseState

/-- The branch logic of handleControlZoneLights, textually identical to the
room handler but writing the zone. -/
def controlZoneLightsPlan (rand : ℕ → ℚ) (args : ControlArgs)
    (zoneLights : List String) : ControlPlan :=
  let baseState := controlBaseState args
  let useVar := (args.useVariation.getD false) || shouldUseVariation args.naturalLanguage
  if useVar && (baseState.hue.isSome || baseState.colorTemp.isSome) then
    ControlPlan.varied
      (zoneLights.zip (generateLightVariations rand baseState zoneLights.length 0))
  else ControlPlan.uniform args.targetId baseState

/-! ### HueClient cache model (hue-client.ts)

The node-hue-api records held in the caches are modeled with their fields
explicit; device writes and fetches are injected outcomes.  Error strings
are the messages thrown by the source. -/

def errNotConnected : String := "Not connected to bridge"

/-- The state sub-object of a cached light record (the fields the optimistic
patch touches, plus reachable as a representative untouched field). -/
structure CachedLightState where
  stateOn : Bool
  bri : ℚ
  hueF : ℚ
  sat : ℚ
  ct : ℚ
  reachable : Bool
deriving DecidableEq

/-- A cached light record. -/
structure CachedLight where
  lightId : String
  name : String
  state : CachedLightState
deriving DecidableEq

/-- A cached group record (type is Room or Zone). -/
structure CachedGroup where
  groupId : String
  name : String
  gtype : String
  lights : List String
  allOn : Bool
  anyOn : Bool
deriving DecidableEq

/-- A cached scene record. -/
structure CachedScene where
  sceneId : String
  name : String
deriving DecidableEq

/-- One successful parallel fetch of all three collections
(api.lights.getAll, api.groups.getAll, api.scenes.getAll). -/
structure FetchedData where
  lights : List CachedLight
  groups : List CachedGroup
  scenes : List CachedScene

def strRoom : String := "Room"
def strZone : String := "Zone"

/-- The mutable fields of HueClient: connection flag, the four caches
(string-keyed maps) and lastSync. -/
structure ClientState where
  api : Bool
  lightsCache : List (String × CachedLight)
  roomsCache : List (String × CachedGroup)
  zonesCache : List (String × CachedGroup)
  scenesCache : List (String × CachedScene)
  lastSync : Option ℤ
deriving DecidableEq

/-- HueClient.shouldRefreshCache: stale when lastSync is null or older than
forceIfOlderThan milliseconds (call sites use the default 300000). -/
def shouldRefreshCache (now : ℤ) (forceIfOlderThan : ℤ) (c : ClientState) : Bool :=
  match c.lastSync with
  | none => true
  | some t => decide (now - t > forceIfOlderThan)

/-- HueClient.refreshCache.  All three fetches happen before any cache is
touched (Promise.all), so a fetch failure leaves every cache and lastSync as
they were and rethrows; on success every collection is rebuilt from the
fetched data and lastSync is set to now. -/
def refreshCache (fetch : Except String FetchedData) (now : ℤ)
    (c : ClientState) : ClientState × Option String :=
  if c.api = false then (c, some errNotConnected)
  else
    match fetch with
    | Except.error e => (c, some e)
    | Except.ok d =>
      ({ c with
          lightsCache := d.lights.map (fun l => (l.lightId, l)),
          roomsCache := (d.groups.filter (fun g => g.gtype == strRoom)).map
            (fun g => (g.groupId, g)),
          zonesCache := (d.groups.filter (fun g => g.gtype == strZone)).map
            (fun g => (g.groupId, g)),
          scenesCache := d.scenes.map (fun s => (s.sceneId, s)),
          lastSync := some now }, none)

/-- HueClient.getLight: lazily refresh when stale (propagating a refresh
failure), then read the lights cache. -/
def getLight (fetch : Except String FetchedData) (now : ℤ) (c : ClientState)
    (id : String) : ClientState × Except String (Option CachedLight) :=
  if shouldRefreshCache now 300000 c then
    match refreshCache fetch now c with
    | (c2, some e) => (c2, Except.error e)
    | (c2, none) => (c2, Except.ok (c2.lightsCache.lookup id))
  else (c, Except.ok (c.lightsCache.lookup id))

/-- The optimistic cache patch of HueClient.setLightState: merge exactly the
fields present in the written state into a copy of the cached record, with
the unit conversions of the source. -/
def patchLight (st : LightState) (rec : CachedLight) : CachedLight :=
  { rec with state :=
    { rec.state with
        stateOn := match st.isOn with
          | some b => b
          | none => rec.state.stateOn,
        bri := match st.brightness with
          | some q => (jsRound (q / 100 * 254) : ℚ)
          | none => rec.state.bri,
        hueF := match st.hue with
          | some q => (jsRound (q / 360 * 65535) : ℚ)
          | none => rec.state.hueF,
        sat := match st.saturation with
          | some q => (jsRound (q / 100 * 254) : ℚ)
          | none => rec.state.sat,
        ct := match st.colorTemp with
          | some q => q
          | none => rec.state.ct } }

/-- HueClient.setLightState: throws when not connected; otherwise the device
write either fails (caught, returns false, cache untouched) or succeeds
(optimistic patch of the cached record, returns true).  writeOk injects the
per-device outcome of the network write. -/
def setLightState (writeOk : String → Bool) (st : LightState)
    (c : ClientState) (id : String) : Except String (Bool × ClientState) :=
  if c.api = false then Except.error errNotConnected
  else if writeOk id = false then Except.ok (false, c)
  else
    match c.lightsCache.lookup id with
    | none => Except.ok (true, c)
    | some rec =>
      Except.ok (true,
        { c with lightsCache := assocUpdate id (patchLight st rec) c.lightsCache })

/-- One per-device entry collected by the variation fan out of
handleControlRoomLights / handleControlZoneLights. -/
structure PerDeviceResult where
  lightId : String
  applied : LightState
  success : Bool
deriving DecidableEq

/-- The Promise.all fan out of the variation branch: one setLightState per
(light, variant) pair, each success captured independently.  The concurrent
dispatch is modeled by a linearization; the success of each entry depends only on
its own device through writeOk. -/
def controlLightsWithVariations (writeOk : String → Bool) :
    ClientState → List (String × LightState) →
      Except String (List PerDeviceResult × ClientState)
  | c, [] => Except.ok ([], c)
  | c, (id, st) :: rest =>
    match setLightState writeOk st c id with
    | Except.error e => Except.error e
    | Except.ok (b, c2) =>
      match controlLightsWithVariations writeOk c2 rest with
      | Except.error e => Except.error e
      | Except.ok (results, c3) =>
        Except.ok ({ lightId := id, applied := st, success := b } :: results, c3)

/-- results.every of the fan out results: overall success. -/
def overallSuccess (results : List PerDeviceResult) : Bool :=
  results.all (fun r => r.success)

/-! ### Heap style embedding of the optimistic patches (hue-client.ts)

JS records are reference structures: the spread copy in setRoomState /
setZoneState copies only the top level, so the state field of the copy aliases
the state object of the cached record.  Cells (nested state objects) live in
an explicit store addressed by natural number references. -/

/-- The state object of a room / zone group record. -/
structure GroupStateCell where
  allOn : Bool
  anyOn : Bool
deriving DecidableEq

/-- A cached room / zone record: top level fields plus a reference to its
state object. -/
structure RoomRecordRef where
  name : String
  lights : List String
  stateRef : ℕ
deriving DecidableEq

/-- A cached light record: top level fields plus a reference to its state
object. -/
structure LightRecordRef where
  name : String
  stateRef : ℕ
deriving DecidableEq

/-- The heap view of the caches: record maps hold references into the cell
stores; nextRef is the next fresh reference. -/
structure HeapState where
  lightCells : List (ℕ × CachedLightState)
  groupCells : List (ℕ × GroupStateCell)
  lightsCacheH : List (String × LightRecordRef)
  roomsCacheH : List (String × RoomRecordRef)
  zonesCacheH : List (String × RoomRecordRef)
  nextRef : ℕ
deriving DecidableEq

/-- The cell content written by patchLight, on the heap view. -/
def patchLightCell (st : LightState) (cell : CachedLightState) : CachedLightState :=
  { cell with
      stateOn := match st.isOn with
        | some b => b
        | none => cell.stateOn,
      bri := match st.brightness with
        | some q => (jsRound (q / 100 * 254) : ℚ)
        | none => cell.bri,
      hueF := match st.hue with
        | some q => (jsRound (q / 360 * 65535) : ℚ)
        | none => cell.hueF,
      sat := match st.saturation with
        | some q => (jsRound (q / 100 * 254) : ℚ)
        | none => cell.sat,
      ct := match st.colorTemp with
        | some q => q
        | none => cell.ct }

/-- Heap view of the optimistic patch in setLightState (write succeeded):
updatedLight = spread of cachedLight, updatedLight.state = spread of
cachedLight.state -- a FRESH state cell is allocated and the stored record
is replaced by one referencing it; the old cell is never written. -/
def setLightStateHeap (st : LightState) (h : HeapState) (id : String) :
    HeapState :=
  match h.lightsCacheH.lookup id with
  | none => h
  | some rec =>
    match h.lightCells.lookup rec.stateRef with
    | none => h
    | some cell =>
      { h with
          lightCells := (h.nextRef, patchLightCell st cell) :: h.lightCells,
          lightsCacheH :=
            assocUpdate id { rec with stateRef := h.nextRef } h.lightsCacheH,
          nextRef := h.nextRef + 1 }

/-- Heap view of the optimistic patch in setRoomState (write succeeded and
state.on is present): updatedRoom = spread of cachedRoom copies only the top
level, so updatedRoom.state IS the state object of the cached record, and the two
assignments to all_on / any_on write through that shared reference. -/
def setRoomStateHeap (onVal : Bool) (h : HeapState) (id : String) : HeapState :=
  match h.roomsCacheH.lookup id with
  | none => h
  | some rec =>
    { h with
        groupCells :=
          assocUpdate rec.stateRef { allOn := onVal, anyOn := onVal } h.groupCells,
        roomsCacheH := assocUpdate id rec h.roomsCacheH }

/-- Heap view of the optimistic patch in setZoneState: identical to the room
path, on the zones cache. -/
def setZoneStateHeap (onVal : Bool) (h : HeapState) (id : String) : HeapState :=
  match h.zonesCacheH.lookup id with
  | none => h
  | some rec =>
    { h with
        groupCells :=
          assocUpdate rec.stateRef { allOn := onVal, anyOn := onVal } h.groupCells,
        zonesCacheH := assocUpdate id rec h.zonesCacheH }

/-! ### pkg/bridge/manager.go -/

/-- One configured bridge (pkg/config.BridgeConfig); IDs are documented as
unique and AddBridge rejects duplicates. -/
structure BridgeConfig where
  bridgeId : String
  name : String
  ip : String
  appKey : String
  enabled : Bool
deriving DecidableEq

/-- A usable bridge as built by initializeBridge (Connected is set true). -/
structure GoBridge where
  bridgeId : String
  name : String
  ip : String
  connected : Bool
deriving DecidableEq

def errNoBridges : String := "no bridges successfully initialized"
def errNoConnected : String := "no connected bridges available"

/-- Manager.initializeBridge: the SDK client / backend / sync engine steps
are external; their combined outcome is injected.  On success the bridge is
returned with Connected true. -/
def initializeBridge (outcome : Except String Unit) (cfg : BridgeConfig) :
    Except String GoBridge :=
  match outcome with
  | Except.error e => Except.error e
  | Except.ok _ =>
    Except.ok { bridgeId := cfg.bridgeId, name := cfg.name, ip := cfg.ip, connected := true }

/-- The loop of Manager.InitializeBridges: skip disabled bridges, log and
skip a bridge whose initialization fails, insert successes into the bridge
map keyed by config ID. -/
def initializeBridgesLoop (outcomes : BridgeConfig → Except String Unit)
    (m : List (String × GoBridge)) : List BridgeConfig → List (String × GoBridge)
  | [] => m
  | cfg :: rest =>
    if cfg.enabled = false then initializeBridgesLoop outcomes m rest
    else
      match initializeBridge (outcomes cfg) cfg with
      | Except.error _ => initializeBridgesLoop outcomes m rest
      | Except.ok b => initializeBridgesLoop outcomes (assocUpdate cfg.bridgeId b m) rest

/-- Manager.InitializeBridges: best effort per bridge; an error is returned
exactly when the resulting bridge map is empty. -/
def initializeBridges (outcomes : BridgeConfig → Except String Unit)
    (cfgs : List BridgeConfig) : List (String × GoBridge) × Option String :=
  let m := initializeBridgesLoop outcomes [] cfgs
  (m, if m.length = 0 then some errNoBridges else none)

/-- Manager.GetDefaultBridge ranges over the Go map m.bridges and returns
the first Connected bridge the iteration meets.  Go map iteration order is
unspecified and randomized per run; it is modeled by the explicit key order
parameter, constrained (where it matters) to a permutation of the map
keys. -/
def getDefaultBridge (m : List (String × GoBridge)) :
    List String → Except String GoBridge
  | [] => Except.error errNoConnected
  | k :: rest =>
    match m.lookup k with
    | some b => if b.connected then Except.ok b else getDefaultBridge m rest
    | none => getDefaultBridge m rest

/-! ### Shared lemmas -/

/-- Substring containment is monotone: containing the larger string implies
containing any infix of it. -/
lemma containsSub_mono {s a b : List Char} (hab : a <:+: b)
    (h : containsSub s b = true) : containsSub s a = true := by
  simp only [containsSub, decide_eq_true_eq] at h ⊢
  exact hab.trans h

/-- Looking up the updated key finds the new value. -/
lemma lookup_assocUpdate_self {κ α : Type} [DecidableEq κ] (k : κ) (v : α)
    (l : List (κ × α)) : (assocUpdate k v l).lookup k = some v := by
  induction l with
  | nil => simp [assocUpdate, List.lookup]
  | cons p rest ih =>
    rcases p with ⟨k2, v2⟩
    unfold assocUpdate
    by_cases h : k2 = k
    · simp [h, List.lookup]
    · simp only [if_neg h, List.lookup]
      have : (k == k2) = false := by
        simp [beq_eq_false_iff_ne]
        exact fun hx => h hx.symm
      simp [this, ih]

/-- Looking up another key is unaffected by assocUpdate. -/
lemma lookup_assocUpdate_ne {κ α : Type} [DecidableEq κ] {k k2 : κ} (v : α)
    (l : List (κ × α)) (h : k2 ≠ k) :
    (assocUpdate k v l).lookup k2 = l.lookup k2 := by
  induction l with
  | nil =>
    have hb : (k2 == k) = false := by simp [h]
    simp [assocUpdate, List.lookup, hb]
  | cons p rest ih =>
    rcases p with ⟨k3, v3⟩
    unfold assocUpdate
    by_cases hk : k3 = k
    · subst hk
      have hb : (k2 == k3) = false := by simp [h]
      simp [List.lookup, hb]
    · simp only [if_neg hk, List.lookup]
      cases hb : k2 == k3
      · simp [ih]
      · simp

/-- Updating an absent key appends: the map grows by exactly one entry. -/
lemma assocUpdate_length_absent {κ α : Type} [DecidableEq κ] {k : κ} (v : α)
    {l : List (κ × α)} (h : l.lookup k = none) :
    (assocUpdate k v l).length = l.length + 1 := by
  induction l with
  | nil => simp [assocUpdate]
  | cons p rest ih =>
    rcases p with ⟨k2, v2⟩
    simp only [List.lookup] at h
    cases hb : k == k2
    · rw [hb] at h
      unfold assocUpdate
      have : k2 ≠ k := by
        intro hx
        rw [hx] at hb
        simp at hb
      simp [if_neg this, ih h]
    · rw [hb] at h
      simp at h

/-! ### Claim C6 -/

def exOffText : List Char := "turn off and make it red".toList

/-- Claim C6: for every input text containing an off cue (the lowercased
text contains the substring off), parseNaturalLanguageState returns exactly
a state with on = false and no other field set, regardless of any other
cues in the string: off detection short-circuits all later parsing steps. -/
theorem offCue_short_circuits_parse (text : List Char)
    (hoff : containsSub (jsLower text) strOff = true) :
    parseNaturalLanguageState text = { isOn := some false } := by
  unfold parseNaturalLanguageState
  simp [hoff]

/-- Witness for C6 at the input turn off and make it red. -/
theorem offCue_short_circuits_parse_witness :
    containsSub (jsLower exOffText) strOff = true ∧
    parseNaturalLanguageState exOffText = { isOn := some false } :=
  ⟨by decide, offCue_short_circuits_parse exOffText (by decide)⟩

/-! ### Claim C7 -/

def exZeroDusk : List Char := "0% dusk".toList
def exFiftyDusk : List Char := "50% dusk".toList

/-- Counterexample to C7 as stated: on the input 0% dusk the brightness step
recognizes the explicit numeric percentage 0 (inside [0,100]) and the color
step matches dusk, whose value component 40 is below 100; yet the parsed
brightness is 40, not 0 — because the source guard uses JS truthiness
(!state.brightness), an explicit 0% is treated as unset and overridden. -/
theorem explicitZeroBrightnessOverridden :
    findBrightnessMatch (jsLower exZeroDusk) = some 0 ∧
    parseColorDescription (jsLower exZeroDusk) =
      some { h := 250, s := 30, v := 40 } ∧
    ((40 : ℚ) < 100) ∧
    (parseNaturalLanguageState exZeroDusk).brightness = some 40 ∧
    some (40 : ℚ) ≠ some ((0 : ℕ) : ℚ) := by
  refine ⟨by decide, by decide, by norm_num, by decide, by decide⟩

/-- Helper: the transition step never touches brightness. -/
lemma applyTransitionStep_brightness (lower : List Char) (st : LightState) :
    (applyTransitionStep lower st).brightness = st.brightness := by
  unfold applyTransitionStep
  split <;> try rfl
  split <;> rfl

/-- Helper: the color temperature step never touches brightness. -/
lemma applyColorTempStep_brightness (lower : List Char) (st : LightState) :
    (applyColorTempStep lower st).brightness = st.brightness := by
  unfold applyColorTempStep
  rcases parseColorTemp lower with _ | ct
  · rfl
  · simp only
    split <;> rfl

/-- Helper: the color step keeps a JS-truthy brightness unchanged. -/
lemma applyColorStep_brightness_of_truthy (lower : List Char) (st : LightState)
    (h : jsFalsyOpt st.brightness = false) :
    (applyColorStep lower st).brightness = st.brightness := by
  unfold applyColorStep
  rcases parseColorDescription lower with _ | hsv
  · rfl
  · simp [h]

/-- Helper: a recognized numeric percentage sets brightness directly. -/
lemma applyBrightnessStep_of_match (lower : List Char) (st : LightState)
    (n : ℕ) (h : findBrightnessMatch lower = some n) :
    applyBrightnessStep lower st = { st with brightness := some (n : ℚ) } := by
  unfold applyBrightnessStep
  rw [h]

/-- Claim C7, amended: for every input without an off cue in which the
brightness step recognizes an explicit NONZERO numeric percentage (in
[1,100]) and the color step matches a named color whose value component is
below 100, the parsed brightness equals the explicit numeric percentage.
(At an explicit 0% the JS-truthiness guard treats brightness as unset and
the color-implied brightness overrides it, per the counterexample.) -/
theorem explicitBrightnessWins (text : List Char) (n : ℕ) (hsv : HSV)
    (hoff : containsSub (jsLower text) strOff = false)
    (hb : findBrightnessMatch (jsLower text) = some n)
    (hn : 1 ≤ n) (hn2 : n ≤ 100)
    (hc : parseColorDescription (jsLower text) = some hsv)
    (hv : hsv.v < 100) :
    (parseNaturalLanguageState text).brightness = some (n : ℚ) := by
  have hto : containsSub (jsLower text) strTurnOff = false := by
    cases hx : containsSub (jsLower text) strTurnOff
    · rfl
    · have : containsSub (jsLower text) strOff = true :=
        containsSub_mono (by decide) hx
      rw [this] at hoff
      exact absurd hoff (by simp)
  unfold parseNaturalLanguageState
  simp only [hoff, hto, Bool.or_self, Bool.false_eq_true, if_false]
  rw [applyBrightnessStep_of_match _ _ n hb]
  rw [applyTransitionStep_brightness, applyColorTempStep_brightness]
  rw [applyColorStep_brightness_of_truthy]
  have hne : ((n : ℚ) == 0) = false := by
    have hpos : (0 : ℚ) < (n : ℚ) := by exact_mod_cast hn
    simp [beq_eq_false_iff_ne]
    linarith
  show jsFalsyOpt (some ((n : ℚ))) = false
  simp [jsFalsyOpt, hne]

/-- Witness for the amended C7 at the input 50% dusk. -/
theorem explicitBrightnessWins_witness :
    (parseNaturalLanguageState exFiftyDusk).brightness = some ((50 : ℕ) : ℚ) :=
  explicitBrightnessWins exFiftyDusk 50 { h := 250, s := 30, v := 40 }
    (by decide) (by decide) (by decide) (by decide) (by decide) (by norm_num)

/-! ### Claim C2 -/

/-- The clamp stays within its bounds. -/
lemma clampQ_mem (lo hi x : ℚ) (h : lo ≤ hi) :
    lo ≤ clampQ lo hi x ∧ clampQ lo hi x ≤ hi :=
  ⟨le_max_left _ _, max_le h (min_le_left _ _)⟩

/-- Clamping a bounded additive perturbation moves the value by at most the
perturbation bound, provided the base value is inside the clamp range. -/
lemma abs_clampQ_sub_le (lo hi h d r : ℚ) (hlo : lo ≤ h) (hhi : h ≤ hi)
    (hd : |d| ≤ r) : |clampQ lo hi (h + d) - h| ≤ r := by
  rw [abs_le] at hd ⊢
  unfold clampQ
  rcases le_total (h + d) lo with hcase | hcase
  · have e1 : min hi (h + d) = h + d := min_le_right hi (h + d) |> fun _ =>
      min_eq_right (le_trans hcase (le_trans hlo hhi))
    have e2 : max lo (h + d) = lo := max_eq_left hcase
    rw [e1, e2]
    constructor <;> linarith
  · rcases le_total hi (h + d) with hcase2 | hcase2
    · have e1 : min hi (h + d) = hi := min_eq_left hcase2
      rw [e1]
      have e2 : max lo hi = hi := max_eq_right (le_trans hlo hhi)
      rw [e2]
      constructor <;> linarith
    · have e1 : min hi (h + d) = h + d := min_eq_right hcase2
      rw [e1]
      have e2 : max lo (h + d) = h + d := max_eq_right hcase
      rw [e2]
      constructor <;> linarith

/-- The brightness clamp lands inside the documented per-device window. -/
lemma brightness_clamp_bounds (b d : ℚ) (hb0 : 0 ≤ b) (hb1 : b ≤ 100)
    (hd1 : -20 ≤ d) (hd2 : d ≤ 20) :
    max 5 (b - 20) ≤ clampQ 5 100 (b + d) ∧
    clampQ 5 100 (b + d) ≤ min 100 (b + 20) ∧
    5 ≤ clampQ 5 100 (b + d) := by
  unfold clampQ
  refine ⟨max_le (le_max_left _ _) ?_, ?_, le_max_left _ _⟩
  · have h1 : b - 20 ≤ min 100 (b + d) := le_min (by linarith) (by linarith)
    exact le_trans h1 (le_max_right _ _)
  · apply max_le
    · exact le_min (by norm_num) (by linarith)
    · exact le_min (min_le_left _ _) (le_trans (min_le_right _ _) (by linarith))

/-- Field behavior of the hue perturbation step. -/
lemma varyHue_spec (rand : ℕ → ℚ) (base : LightState) (p : LightState × ℕ) :
    (varyHue rand base p).1.isOn = p.1.isOn ∧
    (varyHue rand base p).1.brightness = p.1.brightness ∧
    (varyHue rand base p).1.saturation = p.1.saturation ∧
    (varyHue rand base p).1.colorTemp = p.1.colorTemp ∧
    (varyHue rand base p).1.transitionTime = p.1.transitionTime ∧
    (base.hue = none → (varyHue rand base p).1.hue = p.1.hue) ∧
    (∀ h1, base.hue = some h1 →
      (varyHue rand base p).1.hue =
        some (clampQ 0 360 (h1 + (rand p.2 - 1 / 2) * 30))) := by
  unfold varyHue
  rcases hx : base.hue with _ | h1 <;> simp

/-- Field behavior of the saturation perturbation step. -/
lemma varySaturation_spec (rand : ℕ → ℚ) (base : LightState) (p : LightState × ℕ) :
    (varySaturation rand base p).1.isOn = p.1.isOn ∧
    (varySaturation rand base p).1.brightness = p.1.brightness ∧
    (varySaturation rand base p).1.hue = p.1.hue ∧
    (varySaturation rand base p).1.colorTemp = p.1.colorTemp ∧
    (varySaturation rand base p).1.transitionTime = p.1.transitionTime ∧
    (base.saturation = none → (varySaturation rand base p).1.saturation = p.1.saturation) ∧
    (∀ s1, base.saturation = some s1 →
      (varySaturation rand base p).1.saturation =
        some (clampQ 0 100 (s1 + (rand p.2 - 1 / 2) * 20))) := by
  unfold varySaturation
  rcases hx : base.saturation with _ | s1 <;> simp

/-- Field behavior of the brightness perturbation step. -/
lemma varyBrightness_spec (rand : ℕ → ℚ) (base : LightState) (p : LightState × ℕ) :
    (varyBrightness rand base p).1.isOn = p.1.isOn ∧
    (varyBrightness rand base p).1.hue = p.1.hue ∧
    (varyBrightness rand base p).1.saturation = p.1.saturation ∧
    (varyBrightness rand base p).1.colorTemp = p.1.colorTemp ∧
    (varyBrightness rand base p).1.transitionTime = p.1.transitionTime ∧
    (base.brightness = none → (varyBrightness rand base p).1.brightness = p.1.brightness) ∧
    (∀ b1, base.brightness = some b1 →
      (varyBrightness rand base p).1.brightness =
        some (clampQ 5 100 (b1 + (rand p.2 - 1 / 2) * 40))) := by
  unfold varyBrightness
  rcases hx : base.brightness with _ | b1 <;> simp

/-- Field behavior of the color temperature perturbation step. -/
lemma varyColorTemp_spec (rand : ℕ → ℚ) (base : LightState) (p : LightState × ℕ) :
    (varyColorTemp rand base p).1.isOn = p.1.isOn ∧
    (varyColorTemp rand base p).1.hue = p.1.hue ∧
    (varyColorTemp rand base p).1.saturation = p.1.saturation ∧
    (varyColorTemp rand base p).1.brightness = p.1.brightness ∧
    (varyColorTemp rand base p).1.transitionTime = p.1.transitionTime ∧
    (base.colorTemp = none → (varyColorTemp rand base p).1.colorTemp = p.1.colorTemp) ∧
    (∀ c1, base.colorTemp = some c1 →
      (varyColorTemp rand base p).1.colorTemp =
        some (clampQ 153 500 (c1 + (rand p.2 - 1 / 2) * 100))) := by
  unfold varyColorTemp
  rcases hx : base.colorTemp with _ | c1 <;> simp

/-- Field behavior of the transition perturbation step. -/
lemma varyTransition_spec (rand : ℕ → ℚ) (base : LightState) (p : LightState × ℕ) :
    (varyTransition rand base p).1.isOn = p.1.isOn ∧
    (varyTransition rand base p).1.hue = p.1.hue ∧
    (varyTransition rand base p).1.saturation = p.1.saturation ∧
    (varyTransition rand base p).1.brightness = p.1.brightness ∧
    (varyTransition rand base p).1.colorTemp = p.1.colorTemp ∧
    (base.transitionTime = none → (varyTransition rand base p).1.transitionTime = p.1.transitionTime) ∧
    (∀ t1, base.transitionTime = some t1 →
      (varyTransition rand base p).1.transitionTime =
        some (t1 + rand p.2 * 1000)) := by
  unfold varyTransition
  rcases hx : base.transitionTime with _ | t1 <;> simp

/-- The properties claim C2 asserts of every variant produced from a base
state: absent attributes stay absent, present attributes stay within their
documented per-attribute windows. -/
def variantOk (base v : LightState) : Prop :=
  (base.brightness = none → v.brightness = none) ∧
  (∀ b, base.brightness = some b →
    ∃ b2, v.brightness = some b2 ∧ max 5 (b - 20) ≤ b2 ∧
      b2 ≤ min 100 (b + 20) ∧ 5 ≤ b2) ∧
  (base.saturation = none → v.saturation = none) ∧
  (∀ s, base.saturation = some s → ∃ s2, v.saturation = some s2 ∧ 0 ≤ s2 ∧ s2 ≤ 100) ∧
  (base.colorTemp = none → v.colorTemp = none) ∧
  (∀ c1, base.colorTemp = some c1 → ∃ c2, v.colorTemp = some c2 ∧ 153 ≤ c2 ∧ c2 ≤ 500) ∧
  (base.hue = none → v.hue = none) ∧
  (∀ h1, base.hue = some h1 → ∃ h2, v.hue = some h2 ∧ |h2 - h1| ≤ 15) ∧
  (base.transitionTime = none → v.transitionTime = none) ∧
  (∀ t, base.transitionTime = some t →
    ∃ t2, v.transitionTime = some t2 ∧ t ≤ t2 ∧ t2 ≤ t + 1000) ∧
  (base.isOn = none → v.isOn = none)

/-- One generated variant obeys all per-attribute windows. -/
lemma genVariation_variantOk (rand : ℕ → ℚ) (base : LightState) (k : ℕ)
    (hr : ∀ j, 0 ≤ rand j ∧ rand j < 1)
    (hb : ∀ b, base.brightness = some b → 0 ≤ b ∧ b ≤ 100)
    (hh : ∀ h1, base.hue = some h1 → 0 ≤ h1 ∧ h1 ≤ 360) :
    variantOk base (genVariation rand base k).1 := by
  unfold genVariation
  set p1 := varyHue rand base (base, k) with hp1
  set p2 := varySaturation rand base p1 with hp2
  set p3 := varyBrightness rand base p2 with hp3
  set p4 := varyColorTemp rand base p3 with hp4
  obtain ⟨e1a, e1b, e1c, e1d, e1e, e1n, e1s⟩ := varyHue_spec rand base (base, k)
  obtain ⟨e2a, e2b, e2c, e2d, e2e, e2n, e2s⟩ := varySaturation_spec rand base p1
  obtain ⟨e3a, e3b, e3c, e3d, e3e, e3n, e3s⟩ := varyBrightness_spec rand base p2
  obtain ⟨e4a, e4b, e4c, e4d, e4e, e4n, e4s⟩ := varyColorTemp_spec rand base p3
  obtain ⟨e5a, e5b, e5c, e5d, e5e, e5n, e5s⟩ := varyTransition_spec rand base p4
  refine ⟨?_, ?_, ?_, ?_, ?_, ?_, ?_, ?_, ?_, ?_, ?_⟩
  · intro hnone
    rw [e5d, e4d]
    rw [e3n hnone, e2b, e1b]
    exact hnone
  · intro b hsome
    refine ⟨clampQ 5 100 (b + (rand p2.2 - 1 / 2) * 40), ?_, ?_⟩
    · rw [e5d, e4d, e3s b hsome]
    · obtain ⟨hr0, hr1⟩ := hr p2.2
      obtain ⟨hb0, hb1⟩ := hb b hsome
      exact brightness_clamp_bounds b ((rand p2.2 - 1 / 2) * 40) hb0 hb1
        (by linarith) (by linarith)
  · intro hnone
    rw [e5c, e4c, e3c]
    rw [e2n hnone, e1c]
    exact hnone
  · intro s hsome
    refine ⟨clampQ 0 100 (s + (rand p1.2 - 1 / 2) * 20), ?_, ?_, ?_⟩
    · rw [e5c, e4c, e3c, e2s s hsome]
    · exact (clampQ_mem 0 100 _ (by norm_num)).1
    · exact (clampQ_mem 0 100 _ (by norm_num)).2
  · intro hnone
    rw [e5e, e4n hnone, e3d, e2d, e1d]
    exact hnone
  · intro c1 hsome
    refine ⟨clampQ 153 500 (c1 + (rand p3.2 - 1 / 2) * 100), ?_, ?_, ?_⟩
    · rw [e5e, e4s c1 hsome]
    · exact (clampQ_mem 153 500 _ (by norm_num)).1
    · exact (clampQ_mem 153 500 _ (by norm_num)).2
  · intro hnone
    rw [e5b, e4b, e3b, e2c]
    rw [e1n hnone]
    exact hnone
  · intro h1 hsome
    refine ⟨clampQ 0 360 (h1 + (rand k - 1 / 2) * 30), ?_, ?_⟩
    · rw [e5b, e4b, e3b, e2c, e1s h1 hsome]
    · obtain ⟨hr0, hr1⟩ := hr k
      obtain ⟨hh0, hh1⟩ := hh h1 hsome
      exact abs_clampQ_sub_le 0 360 h1 ((rand k - 1 / 2) * 30) 15 hh0 hh1
        (abs_le.mpr ⟨by linarith, by linarith⟩)
  · intro hnone
    rw [e5n hnone, e4e, e3e, e2e, e1e]
    exact hnone
  · intro t hsome
    refine ⟨t + rand p4.2 * 1000, e5s t hsome, ?_, ?_⟩
    · obtain ⟨hr0, hr1⟩ := hr p4.2
      linarith
    · obtain ⟨hr0, hr1⟩ := hr p4.2
      linarith
  · intro hnone
    rw [e5a, e4a, e3a, e2a, e1a]
    exact hnone

/-- Claim C2: for every base state, random stream in [0,1) and device count
n, generateLightVariations returns exactly n variants and every variant
satisfies the documented per-attribute windows (variantOk), given the data
model bounds on the base brightness and hue. -/
theorem generateLightVariations_bounds (rand : ℕ → ℚ) (base : LightState)
    (n k : ℕ)
    (hr : ∀ j, 0 ≤ rand j ∧ rand j < 1)
    (hb : ∀ b, base.brightness = some b → 0 ≤ b ∧ b ≤ 100)
    (hh : ∀ h1, base.hue = some h1 → 0 ≤ h1 ∧ h1 ≤ 360) :
    (generateLightVariations rand base n k).length = n ∧
    ∀ v ∈ generateLightVariations rand base n k, variantOk base v := by
  induction n generalizing k with
  | zero => simp [generateLightVariations]
  | succ n ih =>
    simp only [generateLightVariations]
    constructor
    · simp [(ih (genVariation rand base k).2).1]
    · intro v hv
      rcases List.mem_cons.mp hv with rfl | hv2
      · exact genVariation_variantOk rand base k hr hb hh
      · exact (ih (genVariation rand base k).2).2 v hv2

/-- A brightness-only base state with brightness 30, as in the spec test. -/
def exBase30 : LightState := { brightness := some 30 }

/-- A deterministic stand-in stream for Math.random. -/
def exRand : ℕ → ℚ := fun _ => 1 / 2

/-- Witness for C2: applying the engine to a brightness 30 base and three
devices yields exactly 3 variants, all inside the documented windows. -/
theorem generateLightVariations_bounds_witness :
    (generateLightVariations exRand exBase30 3 0).length = 3 ∧
    ∀ v ∈ generateLightVariations exRand exBase30 3 0, variantOk exBase30 v :=
  generateLightVariations_bounds exRand exBase30 3 0
    (fun _ => ⟨by norm_num [exRand], by norm_num [exRand]⟩)
    (fun b hb => by
      simp only [exBase30] at hb
      cases hb
      norm_num)
    (fun h1 hh => by simp [exBase30] at hh)

/-! ### Claim C10 -/

/-- Claim C10: in both control_room_lights and control_zone_lights, when the
base state carries neither a hue nor a colorTemp, the handler commits to a
single uniform group write with no per-device variants, regardless of
whether variation was requested explicitly (useVariation) or auto-detected
from atmospheric keywords. -/
theorem variationRequiresColor (rand : ℕ → ℚ) (args : ControlArgs)
    (lights : List String)
    (hh : (controlBaseState args).hue = none)
    (hc : (controlBaseState args).colorTemp = none) :
    controlRoomLightsPlan rand args lights =
      ControlPlan.uniform args.targetId (controlBaseState args) ∧
    controlZoneLightsPlan rand args lights =
      ControlPlan.uniform args.targetId (controlBaseState args) := by
  refine ⟨?_, ?_⟩ <;> simp only [controlRoomLightsPlan, controlZoneLightsPlan] <;>
    simp [hh, hc]

def exId : String := "5"

/-- A brightness-only request that explicitly asks for variation. -/
def exBrightnessArgs : ControlArgs :=
  { targetId := exId,
    state := some { isOn := some true, brightness := some 50 },
    naturalLanguage := none,
    useVariation := some true }

/-- Witness for C10: an explicit useVariation request whose state is
brightness-only falls back to the uniform plan for rooms and zones. -/
theorem variationRequiresColor_witness :
    controlRoomLightsPlan exRand exBrightnessArgs [exId] =
      ControlPlan.uniform exBrightnessArgs.targetId (controlBaseState exBrightnessArgs) ∧
    controlZoneLightsPlan exRand exBrightnessArgs [exId] =
      ControlPlan.uniform exBrightnessArgs.targetId (controlBaseState exBrightnessArgs) :=
  variationRequiresColor exRand exBrightnessArgs [exId] (by decide) (by decide)

/-! ### Claim C1 -/

/-- On a connected client, setLightState never throws: it returns exactly
the injected per-device write outcome, and keeps the client connected. -/
lemma setLightState_ok (writeOk : String → Bool) (st : LightState)
    (c : ClientState) (id : String) (hapi : c.api = true) :
    ∃ c2, setLightState writeOk st c id = Except.ok (writeOk id, c2) ∧
      c2.api = true ∧ c2.lastSync = c.lastSync := by
  unfold setLightState
  cases hw : writeOk id with
  | false =>
    refine ⟨c, ?_, hapi, rfl⟩
    simp [hapi]
  | true =>
    cases hl : c.lightsCache.lookup id with
    | none =>
      refine ⟨c, ?_, hapi, rfl⟩
      simp [hapi, hl]
    | some rec =>
      refine ⟨{ c with lightsCache := assocUpdate id (patchLight st rec) c.lightsCache },
        ?_, hapi, rfl⟩
      simp [hapi, hl]

/-- Claim C1: on a connected client the per-device variation fan out never
raises: for every (device, variant) list it returns the complete per-device
result list, one entry per device, the success of each entry being exactly that
own write outcome of that device (independent of every other device), and the
overall success used by the handler is true exactly when the write of every device succeeded. -/
theorem variationFanoutTotal (writeOk : String → Bool) (c : ClientState)
    (pairs : List (String × LightState)) (hapi : c.api = true) :
    ∃ c2, controlLightsWithVariations writeOk c pairs =
        Except.ok (pairs.map
          (fun p => { lightId := p.1, applied := p.2, success := writeOk p.1 }), c2) ∧
      (pairs.map
        (fun p => ({ lightId := p.1, applied := p.2, success := writeOk p.1 } : PerDeviceResult))).length
        = pairs.length ∧
      overallSuccess (pairs.map
        (fun p => { lightId := p.1, applied := p.2, success := writeOk p.1 }))
        = pairs.all (fun p => writeOk p.1) := by
  induction pairs generalizing c with
  | nil =>
    exact ⟨c, rfl, rfl, rfl⟩
  | cons p rest ih =>
    rcases p with ⟨id, st⟩
    obtain ⟨c2, hset, hapi2, _⟩ := setLightState_ok writeOk st c id hapi
    obtain ⟨c3, hrest, hlen, hall⟩ := ih c2 hapi2
    refine ⟨c3, ?_, ?_, ?_⟩
    · simp only [controlLightsWithVariations, hset, hrest, List.map_cons]
    · simp
    · simp only [List.map_cons, overallSuccess, List.all_cons] at hall ⊢
      rw [hall]

def exWriteOkLight : String → Bool := fun id => !(id == exId)

/-- A connected client with an empty cache, for the fan out witness. -/
def exClientBare : ClientState :=
  { api := true, lightsCache := [], roomsCache := [], zonesCache := [],
    scenesCache := [], lastSync := none }

def exId1 : String := "1"
def exId2 : String := "2"

/-- Witness for C1: three devices where the write to device 5 fails; the fan
out still returns all three entries, the two other devices report success,
and the overall success is false. -/
theorem variationFanoutTotal_witness :
    ∃ c2, controlLightsWithVariations exWriteOkLight exClientBare
        [(exId1, exBase30), (exId, exBase30), (exId2, exBase30)] =
      Except.ok
        ([{ lightId := exId1, applied := exBase30, success := true },
          { lightId := exId, applied := exBase30, success := false },
          { lightId := exId2, applied := exBase30, success := true }], c2) := by
  obtain ⟨c2, hrun, _, _⟩ := variationFanoutTotal exWriteOkLight exClientBare
    [(exId1, exBase30), (exId, exBase30), (exId2, exBase30)] rfl
  refine ⟨c2, ?_⟩
  have hmap : (List.map
      (fun p => ({ lightId := p.1, applied := p.2, success := exWriteOkLight p.1 } : PerDeviceResult))
      [(exId1, exBase30), (exId, exBase30), (exId2, exBase30)]) =
      [{ lightId := exId1, applied := exBase30, success := true },
       { lightId := exId, applied := exBase30, success := false },
       { lightId := exId2, applied := exBase30, success := true }] := by decide
  rw [hrun, hmap]

/-! ### Claim C3 -/

/-- Claim C3, amended: a failed full refresh leaves every cache and lastSync
untouched and returns the error to the caller; a subsequent get returns the
prior cached value, without any network propagation, whenever the cache is
within the 300 s staleness threshold at the time of the get; but a get on a
stale-beyond-threshold cache re-attempts the refresh and propagates its
failure instead of returning the prior value. -/
theorem refreshFailureKeepsCache (c : ClientState) (e : String) (now : ℤ)
    (id : String) (hapi : c.api = true) :
    refreshCache (Except.error e) now c = (c, some e) ∧
    (shouldRefreshCache now 300000 c = false →
      getLight (Except.error e) now c id =
        (c, Except.ok (c.lightsCache.lookup id))) ∧
    (shouldRefreshCache now 300000 c = true →
      getLight (Except.error e) now c id = (c, Except.error e)) := by
  refine ⟨?_, ?_, ?_⟩
  · unfold refreshCache
    rw [hapi]
    simp
  · intro hfresh
    unfold getLight
    rw [hfresh]
    simp
  · intro hstale
    unfold getLight
    rw [hstale]
    simp only [if_true]
    unfold refreshCache
    rw [hapi]
    simp

/-- A cached light record. -/
def exLight : CachedLight :=
  { lightId := exId1, name := "Lamp",
    state := { stateOn := false, bri := 100, hueF := 0, sat := 0, ct := 300,
               reachable := true } }

/-- A connected client whose cache holds exLight and whose last sync is
stale beyond the 300 s threshold at time 400000. -/
def exClientStale : ClientState :=
  { api := true, lightsCache := [(exId1, exLight)], roomsCache := [],
    zonesCache := [], scenesCache := [], lastSync := some 0 }

def errNetwork : String := "network down"

/-- Counterexample to C3 as stated: the cache holds previously fetched data
and the refresh keeps failing, yet the subsequent get raises the refresh
error instead of returning the prior (stale) cached value. -/
theorem staleGetRaises :
    exClientStale.lightsCache.lookup exId1 = some exLight ∧
    shouldRefreshCache 400000 300000 exClientStale = true ∧
    getLight (Except.error errNetwork) 400000 exClientStale exId1 =
      (exClientStale, Except.error errNetwork) ∧
    (Except.error errNetwork : Except String (Option CachedLight)) ≠
      Except.ok (some exLight) := by
  refine ⟨by decide, by decide, ?_, fun hx => Except.noConfusion hx⟩
  have h := refreshFailureKeepsCache exClientStale errNetwork 400000 exId1 rfl
  exact h.2.2 (by decide)

/-- Witness for the amended C3: on a fresh-enough cache (same client, get at
time 200000) the failed refresh leaves the cache untouched and the get
returns the prior cached value without raising. -/
theorem refreshFailureKeepsCache_witness :
    refreshCache (Except.error errNetwork) 200000 exClientStale =
      (exClientStale, some errNetwork) ∧
    getLight (Except.error errNetwork) 200000 exClientStale exId1 =
      (exClientStale, Except.ok (some exLight)) := by
  obtain ⟨h1, h2, _⟩ :=
    refreshFailureKeepsCache exClientStale errNetwork 200000 exId1 rfl
  refine ⟨h1, ?_⟩
  rw [h2 (by decide)]
  have hl : exClientStale.lightsCache.lookup exId1 = some exLight := by decide
  rw [hl]

/-! ### Claim C4 -/

/-- Claim C4: after a successful device write to a cached light, the
optimistic patch merges exactly the fields present in the written state into
the cached record (with the unit conversions of the source), leaves every other
field of the record untouched, leaves lastSync (the fetch timestamp of the cache)
untouched, and a get immediately afterwards returns the patched record
without consulting the network (the result holds for every injected fetch,
in particular a failing one), for any staleness window not yet exceeded. -/
theorem optimisticPatchMergesOnly (st : LightState) (c : ClientState)
    (id : String) (rec : CachedLight) (hapi : c.api = true)
    (hrec : c.lightsCache.lookup id = some rec) :
    ∃ c2, setLightState (fun _ => true) st c id = Except.ok (true, c2) ∧
      c2.lightsCache.lookup id = some (patchLight st rec) ∧
      c2.lastSync = c.lastSync ∧
      c2.api = c.api ∧
      c2.roomsCache = c.roomsCache ∧
      c2.zonesCache = c.zonesCache ∧
      c2.scenesCache = c.scenesCache ∧
      (st.isOn = none → (patchLight st rec).state.stateOn = rec.state.stateOn) ∧
      (st.brightness = none → (patchLight st rec).state.bri = rec.state.bri) ∧
      (st.hue = none → (patchLight st rec).state.hueF = rec.state.hueF) ∧
      (st.saturation = none → (patchLight st rec).state.sat = rec.state.sat) ∧
      (st.colorTemp = none → (patchLight st rec).state.ct = rec.state.ct) ∧
      (patchLight st rec).state.reachable = rec.state.reachable ∧
      (patchLight st rec).lightId = rec.lightId ∧
      (patchLight st rec).name = rec.name ∧
      (∀ b, st.isOn = some b → (patchLight st rec).state.stateOn = b) ∧
      (∀ q, st.brightness = some q →
        (patchLight st rec).state.bri = (jsRound (q / 100 * 254) : ℚ)) ∧
      (∀ q, st.hue = some q →
        (patchLight st rec).state.hueF = (jsRound (q / 360 * 65535) : ℚ)) ∧
      (∀ q, st.saturation = some q →
        (patchLight st rec).state.sat = (jsRound (q / 100 * 254) : ℚ)) ∧
      (∀ q, st.colorTemp = some q → (patchLight st rec).state.ct = q) ∧
      (∀ now fetch, shouldRefreshCache now 300000 c = false →
        getLight fetch now c2 id = (c2, Except.ok (some (patchLight st rec)))) := by
  refine ⟨{ c with lightsCache := assocUpdate id (patchLight st rec) c.lightsCache },
    ?_, ?_, rfl, rfl, rfl, rfl, rfl, ?_, ?_, ?_, ?_, ?_, rfl, rfl, rfl,
    ?_, ?_, ?_, ?_, ?_, ?_⟩
  · unfold setLightState
    simp [hapi, hrec]
  · exact lookup_assocUpdate_self id (patchLight st rec) c.lightsCache
  · intro h
    simp [patchLight, h]
  · intro h
    simp [patchLight, h]
  · intro h
    simp [patchLight, h]
  · intro h
    simp [patchLight, h]
  · intro h
    simp [patchLight, h]
  · intro b h
    simp [patchLight, h]
  · intro q h
    simp [patchLight, h]
  · intro q h
    simp [patchLight, h]
  · intro q h
    simp [patchLight, h]
  · intro q h
    simp [patchLight, h]
  · intro now fetch hfresh
    have hfresh2 : shouldRefreshCache now 300000
        { c with lightsCache := assocUpdate id (patchLight st rec) c.lightsCache } = false := by
      simpa [shouldRefreshCache] using hfresh
    unfold getLight
    rw [hfresh2]
    simp [lookup_assocUpdate_self]

/-- A connected, freshly synced client whose cache holds exLight. -/
def exClientFresh : ClientState :=
  { api := true, lightsCache := [(exId1, exLight)], roomsCache := [],
    zonesCache := [], scenesCache := [], lastSync := some 0 }

/-- The written state of the spec example: only the on field present. -/
def exOnState : LightState := { isOn := some true }

/-- Witness for C4: writing on=true to the cached light patches exactly the
on field, keeps lastSync, and a get at time 1000 (within the window) returns
the patched record even though the injected fetch would fail. -/
theorem optimisticPatchMergesOnly_witness :
    ∃ c2, setLightState (fun _ => true) exOnState exClientFresh exId1 =
        Except.ok (true, c2) ∧
      c2.lightsCache.lookup exId1 = some (patchLight exOnState exLight) ∧
      c2.lastSync = exClientFresh.lastSync ∧
      (patchLight exOnState exLight).state.stateOn = true ∧
      (patchLight exOnState exLight).state.bri = exLight.state.bri ∧
      getLight (Except.error errNetwork) 1000 c2 exId1 =
        (c2, Except.ok (some (patchLight exOnState exLight))) := by
  obtain ⟨c2, h1, h2, h3, _, _, _, _, _, hbri, _, _, _, _, _, _, hon, _, _, _, _, hget⟩ :=
    optimisticPatchMergesOnly exOnState exClientFresh exId1 exLight rfl (by decide)
  exact ⟨c2, h1, h2, h3, hon true rfl, hbri rfl, hget 1000 (Except.error errNetwork) (by decide)⟩

/-! ### Claim C5 -/

def exRoomId : String := "7"

/-- A stored room record whose state object lives at reference 0. -/
def exRoomRec : RoomRecordRef := { name := "Bedroom", lights := [exId1], stateRef := 0 }

/-- A heap whose rooms cache holds exRoomRec with its state cell at
reference 0 reading all_on = false, any_on = false. -/
def exHeap : HeapState :=
  { lightCells := [],
    groupCells := [(0, { allOn := false, anyOn := false })],
    lightsCacheH := [],
    roomsCacheH := [(exRoomId, exRoomRec)],
    zonesCacheH := [],
    nextRef := 1 }

/-- Counterexample to C5 as stated: the optimistic patch of setRoomState
shallow-copies the cached room record, so the state field of the copy aliases the
state object of the stored record; the patch writes all_on / any_on through that
shared reference.  After the patch the rooms cache still holds the very same
record value (same state reference), but the state object it references has
changed from all_on=false to all_on=true: a state field of a cached record was mutated in place after the record was stored. -/
theorem roomPatchMutatesInPlace :
    exHeap.roomsCacheH.lookup exRoomId = some exRoomRec ∧
    exHeap.groupCells.lookup exRoomRec.stateRef =
      some { allOn := false, anyOn := false } ∧
    (setRoomStateHeap true exHeap exRoomId).roomsCacheH.lookup exRoomId =
      some exRoomRec ∧
    (setRoomStateHeap true exHeap exRoomId).groupCells.lookup exRoomRec.stateRef =
      some { allOn := true, anyOn := true } ∧
    ({ allOn := true, anyOn := true } : GroupStateCell) ≠
      { allOn := false, anyOn := false } := by
  refine ⟨by decide, by decide, by decide, by decide, by decide⟩

/-- Claim C5, amended: the light write path and the full refresh never
mutate a stored record in place (the light patch allocates a fresh state
cell and leaves the old cell untouched, and the refresh rebuilds whole
collections), but the room and zone write paths shallow-copy the record and
write the new on state through the state reference shared with the stored
record, mutating its state object in place. -/
theorem lightPatchReplacesRoomPatchMutates (st : LightState) (onVal : Bool)
    (h : HeapState) (idL idR idZ : String) (recL : LightRecordRef)
    (cellL : CachedLightState) (recR recZ : RoomRecordRef)
    (hL : h.lightsCacheH.lookup idL = some recL)
    (hCL : h.lightCells.lookup recL.stateRef = some cellL)
    (hfresh : recL.stateRef ≠ h.nextRef)
    (hR : h.roomsCacheH.lookup idR = some recR)
    (hZ : h.zonesCacheH.lookup idZ = some recZ) :
    ((setLightStateHeap st h idL).lightCells.lookup recL.stateRef = some cellL) ∧
    ((setLightStateHeap st h idL).lightsCacheH.lookup idL =
      some { recL with stateRef := h.nextRef }) ∧
    ((setRoomStateHeap onVal h idR).groupCells.lookup recR.stateRef =
      some { allOn := onVal, anyOn := onVal }) ∧
    ((setRoomStateHeap onVal h idR).roomsCacheH.lookup idR = some recR) ∧
    ((setZoneStateHeap onVal h idZ).groupCells.lookup recZ.stateRef =
      some { allOn := onVal, anyOn := onVal }) ∧
    ((setZoneStateHeap onVal h idZ).zonesCacheH.lookup idZ = some recZ) := by
  refine ⟨?_, ?_, ?_, ?_, ?_, ?_⟩
  · unfold setLightStateHeap
    simp only [hL, hCL]
    simp only [List.lookup]
    have hb : (recL.stateRef == h.nextRef) = false := by simp [hfresh]
    rw [hb]
    exact hCL
  · unfold setLightStateHeap
    simp only [hL, hCL]
    exact lookup_assocUpdate_self idL _ h.lightsCacheH
  · unfold setRoomStateHeap
    simp only [hR]
    exact lookup_assocUpdate_self recR.stateRef _ h.groupCells
  · unfold setRoomStateHeap
    simp only [hR]
    exact lookup_assocUpdate_self idR recR h.roomsCacheH
  · unfold setZoneStateHeap
    simp only [hZ]
    exact lookup_assocUpdate_self recZ.stateRef _ h.groupCells
  · unfold setZoneStateHeap
    simp only [hZ]
    exact lookup_assocUpdate_self idZ recZ h.zonesCacheH

def exZoneId : String := "9"

/-- A light record at reference 1 and a zone record at reference 2, together
with the room of exHeap, for the amended C5 witness. -/
def exHeapFull : HeapState :=
  { lightCells := [(1, exLight.state)],
    groupCells := [(0, { allOn := false, anyOn := false }),
                   (2, { allOn := false, anyOn := false })],
    lightsCacheH := [(exId1, { name := "Lamp", stateRef := 1 })],
    roomsCacheH := [(exRoomId, exRoomRec)],
    zonesCacheH := [(exZoneId, { name := "Desk", lights := [exId1], stateRef := 2 })],
    nextRef := 3 }

/-- Witness for the amended C5 on the concrete heap. -/
theorem lightPatchReplacesRoomPatchMutates_witness :
    ((setLightStateHeap exOnState exHeapFull exId1).lightCells.lookup 1 =
      some exLight.state) ∧
    ((setLightStateHeap exOnState exHeapFull exId1).lightsCacheH.lookup exId1 =
      some { name := "Lamp", stateRef := 3 }) ∧
    ((setRoomStateHeap true exHeapFull exRoomId).groupCells.lookup 0 =
      some { allOn := true, anyOn := true }) ∧
    ((setZoneStateHeap true exHeapFull exZoneId).groupCells.lookup 2 =
      some { allOn := true, anyOn := true }) := by
  obtain ⟨ha, hb, hc, _, he, _⟩ :=
    lightPatchReplacesRoomPatchMutates exOnState true exHeapFull exId1 exRoomId
      exZoneId { name := "Lamp", stateRef := 1 } exLight.state exRoomRec
      { name := "Desk", lights := [exId1], stateRef := 2 }
      (by decide) (by decide) (by decide) (by decide) (by decide)
  exact ⟨ha, hb, hc, he⟩

/-! ### Claim C8 -/

/-- Whether the initialization outcome of a configured bridge is a failure. -/
def initFailed (outcomes : BridgeConfig → Except String Unit)
    (cfg : BridgeConfig) : Bool :=
  match outcomes cfg with
  | Except.error _ => true
  | Except.ok _ => false

/-- The loop of InitializeBridges adds exactly one map entry per enabled,
successfully initialized bridge with a fresh ID. -/
lemma initializeBridgesLoop_length (outcomes : BridgeConfig → Except String Unit)
    (cfgs : List BridgeConfig) :
    ∀ m : List (String × GoBridge),
      (∀ cfg ∈ cfgs, cfg.enabled = true) →
      (cfgs.map (fun cfg => cfg.bridgeId)).Nodup →
      (∀ cfg ∈ cfgs, m.lookup cfg.bridgeId = none) →
      (initializeBridgesLoop outcomes m cfgs).length =
        m.length + (cfgs.filter (fun cfg => !(initFailed outcomes cfg))).length := by
  induction cfgs with
  | nil =>
    intro m _ _ _
    simp [initializeBridgesLoop]
  | cons cfg rest ih =>
    intro m hen hnd hdisj
    have hen1 : cfg.enabled = true := hen cfg (by simp)
    have henr : ∀ c2 ∈ rest, c2.enabled = true :=
      fun c2 hc2 => hen c2 (List.mem_cons_of_mem _ hc2)
    simp only [List.map_cons, List.nodup_cons] at hnd
    obtain ⟨hnotin, hndr⟩ := hnd
    have hne : ∀ c2 ∈ rest, c2.bridgeId ≠ cfg.bridgeId := by
      intro c2 hc2 hx
      exact hnotin (hx ▸ List.mem_map.mpr ⟨c2, hc2, rfl⟩)
    unfold initializeBridgesLoop
    rw [hen1]
    simp only [Bool.true_eq_false, if_false]
    cases ho : outcomes cfg with
    | error e =>
      have hf : initFailed outcomes cfg = true := by simp [initFailed, ho]
      simp only [initializeBridge, ho]
      rw [ih m henr hndr (fun c2 hc2 => hdisj c2 (List.mem_cons_of_mem _ hc2))]
      simp [hf]
    | ok u =>
      have hf : initFailed outcomes cfg = false := by simp [initFailed, ho]
      simp only [initializeBridge, ho]
      have hdisj1 : m.lookup cfg.bridgeId = none := hdisj cfg (by simp)
      have hgrow := assocUpdate_length_absent
        ({ bridgeId := cfg.bridgeId, name := cfg.name, ip := cfg.ip,
           connected := true } : GoBridge) hdisj1
      rw [ih (assocUpdate cfg.bridgeId
          { bridgeId := cfg.bridgeId, name := cfg.name, ip := cfg.ip, connected := true } m)
        henr hndr ?_]
      · rw [hgrow]
        simp [hf]
        omega
      · intro c2 hc2
        rw [lookup_assocUpdate_ne _ m (hne c2 hc2)]
        exact hdisj c2 (List.mem_cons_of_mem _ hc2)

/-- Claim C8: with every configured bridge enabled and IDs unique (the
documented configuration invariant), initialization is best effort per
bridge: n configured bridges of which k fail to initialize yield exactly
n - k usable bridges, and an error is returned exactly when no bridge is
usable, that is, exactly unless k < n. -/
theorem initializeBestEffort (outcomes : BridgeConfig → Except String Unit)
    (cfgs : List BridgeConfig)
    (hen : ∀ cfg ∈ cfgs, cfg.enabled = true)
    (hnd : (cfgs.map (fun cfg => cfg.bridgeId)).Nodup) :
    (initializeBridges outcomes cfgs).1.length =
      cfgs.length - (cfgs.filter (fun cfg => initFailed outcomes cfg)).length ∧
    ((initializeBridges outcomes cfgs).2 = none ↔
      (cfgs.filter (fun cfg => initFailed outcomes cfg)).length < cfgs.length) := by
  have hsplit := List.length_eq_length_filter_add (l := cfgs)
    (fun cfg => initFailed outcomes cfg)
  have hloop := initializeBridgesLoop_length outcomes cfgs [] hen hnd (by
    intro cfg _
    simp [List.lookup])
  have hlen : (initializeBridges outcomes cfgs).1.length =
      cfgs.length - (cfgs.filter (fun cfg => initFailed outcomes cfg)).length := by
    unfold initializeBridges
    simp only
    rw [hloop]
    simp only [List.length_nil, Nat.zero_add]
    omega
  refine ⟨hlen, ?_⟩
  unfold initializeBridges
  simp only
  constructor
  · intro hnone
    by_contra hk
    have hge : cfgs.length ≤ (cfgs.filter (fun cfg => initFailed outcomes cfg)).length :=
      Nat.le_of_not_lt hk
    have hle := List.length_filter_le (fun cfg => initFailed outcomes cfg) cfgs
    have hzero : (initializeBridgesLoop outcomes [] cfgs).length = 0 := by
      rw [hloop]
      simp only [List.length_nil, Nat.zero_add]
      omega
    rw [if_pos hzero] at hnone
    cases hnone
  · intro hk
    have hpos : (initializeBridgesLoop outcomes [] cfgs).length ≠ 0 := by
      rw [hloop]
      simp only [List.length_nil, Nat.zero_add]
      omega
    rw [if_neg hpos]

def strB2 : String := "b2"
def errConnect : String := "connect failed"

/-- Three enabled bridge configurations with distinct IDs. -/
def exCfgA : BridgeConfig :=
  { bridgeId := "b1", name := "One", ip := "10.0.0.1", appKey := "k1", enabled := true }
def exCfgB : BridgeConfig :=
  { bridgeId := "b2", name := "Two", ip := "10.0.0.2", appKey := "k2", enabled := true }
def exCfgC : BridgeConfig :=
  { bridgeId := "b3", name := "Three", ip := "10.0.0.3", appKey := "k3", enabled := true }

def exCfgs : List BridgeConfig := [exCfgA, exCfgB, exCfgC]

/-- An outcome function under which only bridge b2 fails to initialize. -/
def exOutcomes : BridgeConfig → Except String Unit := fun cfg =>
  if cfg.bridgeId == strB2 then Except.error errConnect else Except.ok ()

/-- Witness for C8: three configured bridges of which one fails yield
exactly two usable bridges and no fatal error. -/
theorem initializeBestEffort_witness :
    (initializeBridges exOutcomes exCfgs).1.length = 2 ∧
    (initializeBridges exOutcomes exCfgs).2 = none := by
  obtain ⟨h1, h2⟩ := initializeBestEffort exOutcomes exCfgs
    (by intro cfg hc; fin_cases hc <;> rfl) (by decide)
  have hk : (exCfgs.filter (fun cfg => initFailed exOutcomes cfg)).length = 1 := by decide
  constructor
  · rw [h1, hk]
    decide
  · exact h2.mpr (by rw [hk]; decide)

/-! ### Claim C9 -/

/-- A successful lookup result is a member of the association list. -/
lemma mem_of_lookup_eq_some {κ α : Type} [DecidableEq κ] {k : κ} {v : α} :
    ∀ {l : List (κ × α)}, l.lookup k = some v → (k, v) ∈ l := by
  intro l
  induction l with
  | nil =>
    intro h
    simp [List.lookup] at h
  | cons p rest ih =>
    rcases p with ⟨k2, v2⟩
    intro h
    simp only [List.lookup] at h
    cases hb : k == k2
    · rw [hb] at h
      exact List.mem_cons_of_mem _ (ih h)
    · rw [hb] at h
      cases h
      have : k = k2 := by simpa using hb
      subst this
      exact List.mem_cons_self _ _

/-- With unique keys, membership determines the lookup result. -/
lemma lookup_eq_some_of_mem_nodup {κ α : Type} [DecidableEq κ] {k : κ} {v : α} :
    ∀ {l : List (κ × α)}, (k, v) ∈ l → (l.map (fun p => p.1)).Nodup →
      l.lookup k = some v := by
  intro l
  induction l with
  | nil =>
    intro h _
    simp at h
  | cons p rest ih =>
    rcases p with ⟨k2, v2⟩
    intro hmem hnd
    simp only [List.map_cons, List.nodup_cons] at hnd
    obtain ⟨hnotin, hndr⟩ := hnd
    rcases List.mem_cons.mp hmem with heq | hmem2
    · cases heq
      simp [List.lookup]
    · have hne : k ≠ k2 := by
        intro hx
        subst hx
        exact hnotin (List.mem_map.mpr ⟨(k, v), hmem2, rfl⟩)
      have hb : (k == k2) = false := by simp [hne]
      simp only [List.lookup, hb]
      exact ih hmem2 hndr

/-- Scanning any key order that contains the key of a connected bridge finds
some connected bridge of the map. -/
lemma getDefaultBridge_finds (m : List (String × GoBridge))
    (hnd : (m.map (fun p => p.1)).Nodup) (k0 : String) (b0 : GoBridge)
    (hmem : (k0, b0) ∈ m) (hconn : b0.connected = true) :
    ∀ order : List String, k0 ∈ order →
      ∃ b, getDefaultBridge m order = Except.ok b ∧ b.connected = true ∧
        ∃ k, (k, b) ∈ m := by
  intro order
  induction order with
  | nil =>
    intro h
    simp at h
  | cons k rest ih =>
    intro hk0
    cases hl : m.lookup k with
    | none =>
      have heq : getDefaultBridge m (k :: rest) = getDefaultBridge m rest := by
        simp only [getDefaultBridge]
        rw [hl]
      rw [heq]
      apply ih
      rcases List.mem_cons.mp hk0 with rfl | h
      · have := lookup_eq_some_of_mem_nodup hmem hnd
        rw [hl] at this
        cases this
      · exact h
    | some b =>
      have heq : getDefaultBridge m (k :: rest) =
          (if b.connected = true then Except.ok b else getDefaultBridge m rest) := by
        simp only [getDefaultBridge]
        rw [hl]
      rw [heq]
      cases hc : b.connected with
      | true =>
        exact ⟨b, by simp [hc], hc, k, mem_of_lookup_eq_some hl⟩
      | false =>
        have hred : (if false = true then Except.ok b
            else getDefaultBridge m rest) = getDefaultBridge m rest := by simp
        rw [hred]
        apply ih
        rcases List.mem_cons.mp hk0 with rfl | h
        · have := lookup_eq_some_of_mem_nodup hmem hnd
          rw [hl] at this
          cases this
          rw [hconn] at hc
          cases hc
        · exact h

/-- If no bridge is connected, every key order yields the error. -/
lemma getDefaultBridge_none (m : List (String × GoBridge))
    (hall : ∀ p ∈ m, p.2.connected = false) :
    ∀ order : List String, getDefaultBridge m order = Except.error errNoConnected := by
  intro order
  induction order with
  | nil => rfl
  | cons k rest ih =>
    unfold getDefaultBridge
    cases hl : m.lookup k with
    | none => exact ih
    | some b =>
      have hcf : b.connected = false := hall (k, b) (mem_of_lookup_eq_some hl)
      simp [hcf, ih]

def exBridgeA : GoBridge :=
  { bridgeId := "a", name := "A", ip := "10.0.0.1", connected := true }
def exBridgeB : GoBridge :=
  { bridgeId := "b", name := "B", ip := "10.0.0.2", connected := true }

def strA : String := "a"
def strB : String := "b"

def exBridgeMap : List (String × GoBridge) := [(strA, exBridgeA), (strB, exBridgeB)]

def orderAB : List String := [strA, strB]
def orderBA : List String := [strB, strA]

/-- Counterexample to C9 as stated: with two connected bridges in the
registry, both key orders are permutations of the map keys (both are
possible Go map iteration orders over the same registry state), yet they
return different bridges — GetDefaultBridge is not deterministic across
runs. -/
theorem getDefaultDependsOnOrder :
    orderAB.Perm (exBridgeMap.map (fun p => p.1)) ∧
    orderBA.Perm (exBridgeMap.map (fun p => p.1)) ∧
    getDefaultBridge exBridgeMap orderAB = Except.ok exBridgeA ∧
    getDefaultBridge exBridgeMap orderBA = Except.ok exBridgeB ∧
    exBridgeA ≠ exBridgeB := by
  refine ⟨?_, ?_, rfl, rfl, by decide⟩
  · have : exBridgeMap.map (fun p => p.1) = [strA, strB] := rfl
    rw [this]
    exact List.Perm.refl _
  · have : exBridgeMap.map (fun p => p.1) = [strA, strB] := rfl
    rw [this]
    exact List.Perm.swap strA strB []

/-- Claim C9, amended: over every iteration order that is a permutation of
the keys of the registry, GetDefaultBridge returns some connected bridge of the
registry whenever one exists and the no-bridge error when none is connected
— but which connected bridge is returned depends on the iteration order, so
the result is not deterministic across runs (see the counterexample). -/
theorem getDefaultReturnsSomeConnected (m : List (String × GoBridge))
    (order : List String) (hnd : (m.map (fun p => p.1)).Nodup)
    (hperm : order.Perm (m.map (fun p => p.1))) :
    ((∃ p ∈ m, p.2.connected = true) →
      ∃ b, getDefaultBridge m order = Except.ok b ∧ b.connected = true ∧
        ∃ k, (k, b) ∈ m) ∧
    ((∀ p ∈ m, p.2.connected = false) →
      getDefaultBridge m order = Except.error errNoConnected) := by
  constructor
  · rintro ⟨⟨k0, b0⟩, hmem, hconn⟩
    apply getDefaultBridge_finds m hnd k0 b0 hmem hconn order
    have : k0 ∈ m.map (fun p => p.1) := List.mem_map.mpr ⟨(k0, b0), hmem, rfl⟩
    exact hperm.mem_iff.mpr this
  · intro hall
    exact getDefaultBridge_none m hall order

/-- Witness for the amended C9 on the two-bridge registry. -/
theorem getDefaultReturnsSomeConnected_witness :
    ∃ b, getDefaultBridge exBridgeMap orderAB = Except.ok b ∧
      b.connected = true := by
  obtain ⟨h1, _⟩ := getDefaultReturnsSomeConnected exBridgeMap orderAB
    (by decide)
    (by
      have : exBridgeMap.map (fun p => p.1) = [strA, strB] := rfl
      rw [this]
      exact List.Perm.refl _)
  obtain ⟨b, hb1, hb2, _⟩ := h1 ⟨(strA, exBridgeA), by decide, rfl⟩
  exact ⟨b, hb1, hb2⟩

end HueMcp
